import Mathlib

/-!
Verification of the Unit-Converter repository (src/converter.py).

Numbers are modelled by exact rationals (ℚ); Python's built-in `round`
(round-half-to-even to a number of decimal places) is modelled by
`roundPy`.  Python dictionaries with string keys are modelled by
association lists looked up with `dictGet`.  The files `history.json`
and `currency_rates.json` are modelled by explicit state values of type
`Option _` (`none` = the file does not exist), threaded through the
functions that read or write them.
-/

namespace UnitConverter

/-- Round a rational to the nearest integer, ties to even
(the behaviour of Python's built-in `round`). -/
def roundHalfEven (q : ℚ) : ℤ :=
  if q - (⌊q⌋ : ℚ) < 1/2 then ⌊q⌋
  else if 1/2 < q - (⌊q⌋ : ℚ) then ⌊q⌋ + 1
  else if ⌊q⌋ % 2 = 0 then ⌊q⌋ else ⌊q⌋ + 1

/-- Python's `round(q, n)`: round to `n` decimal places, ties to even. -/
def roundPy (q : ℚ) (n : ℕ) : ℚ :=
  (roundHalfEven (q * 10 ^ n) : ℚ) / 10 ^ n

/-- Lookup in an association list with string keys, modelling
Python `d[k]` / `d.get(k)` / `k in d` on a dict `d`. -/
def dictGet {α : Type} (l : List (String × α)) (k : String) : Option α :=
  match l with
  | [] => Option.none
  | (k0, v0) :: rest => if k = k0 then Option.some v0 else dictGet rest k

/-- The `categories` dict of `get_supported_units` in src/converter.py. -/
def categoriesTable : List (String × List String) :=
  [("Length", ["Meter", "Kilometer", "Centimeter", "Mile"]),
   ("Weight", ["Kilogram", "Gram", "Pound", "Ounce"]),
   ("Temperature", ["Celsius", "Fahrenheit"]),
   ("Speed", ["m/s", "km/h", "mph"]),
   ("Currency", ["USD", "EUR", "GBP", "INR", "PKR"])]

/-- `get_supported_units(category)`: the unit list of the category,
`[]` for an unrecognised category (Python `dict.get(category, [])`). -/
def get_supported_units (category : String) : List String :=
  (dictGet categoriesTable category).getD []

/-- The `factors` dict of `multi_step_conversion`: per linear category,
unit → base-unit multiplier (decimal literals as exact rationals). -/
def factorsTable : List (String × List (String × ℚ)) :=
  [("Length", [("Meter", 1), ("Kilometer", 1000), ("Centimeter", 1/100),
               ("Mile", 160934/100)]),
   ("Weight", [("Kilogram", 1), ("Gram", 1/1000), ("Pound", 453592/1000000),
               ("Ounce", 283495/10000000)]),
   ("Speed", [("m/s", 1), ("km/h", 36/10), ("mph", 2237/1000)])]

/-- Result of `multi_step_conversion`: a number, Python `None`, or an
uncaught `KeyError` raised by a failing dict lookup. -/
inductive ConvResult : Type
  | num (q : ℚ)
  | noneRes
  | keyError
deriving DecidableEq, Repr

/-- `multi_step_conversion(category, from_unit, to_unit, value)` from
src/converter.py: linear categories use
`round(value * factors[category][from_unit] / factors[category][to_unit], 4)`;
Temperature handles only Celsius↔Fahrenheit with 2-decimal rounding;
everything else returns `None`. -/
def multi_step_conversion (category from_unit to_unit : String) (value : ℚ) :
    ConvResult :=
  match dictGet factorsTable category with
  | Option.some table =>
      match dictGet table from_unit, dictGet table to_unit with
      | Option.some a, Option.some b =>
          ConvResult.num (roundPy (value * a / b) 4)
      | _, _ => ConvResult.keyError
  | Option.none =>
      if category = "Temperature" then
        if from_unit = "Celsius" ∧ to_unit = "Fahrenheit" then
          ConvResult.num (roundPy (value * 9/5 + 32) 2)
        else if from_unit = "Fahrenheit" ∧ to_unit = "Celsius" then
          ConvResult.num (roundPy ((value - 32) * 5/9) 2)
        else ConvResult.noneRes
      else ConvResult.noneRes

/-- A persisted conversion record `[value, fromUnit, toUnit, result]`;
the result is a number or (for failed currency conversions) a string. -/
structure ConversionRecord : Type where
  value : ℚ
  fromUnit : String
  toUnit : String
  result : ℚ ⊕ String
deriving DecidableEq, Repr

/-- The `history.json` file: `none` when the file does not exist,
otherwise its JSON array of records. -/
abbrev HistoryFile : Type := Option (List ConversionRecord)

/-- `load_history()`: the file content, or `[]` when opening raises
`FileNotFoundError`. -/
def load_history (file : HistoryFile) : List ConversionRecord :=
  file.getD []

/-- `save_history(conversion)`: load, append, rewrite the whole file. -/
def save_history (conversion : ConversionRecord) (file : HistoryFile) :
    HistoryFile :=
  Option.some (load_history file ++ [conversion])

/-- `clear_history()`: rewrite the file with an empty array. -/
def clear_history (_file : HistoryFile) : HistoryFile :=
  Option.some []

/-- A currency rate table (`currency_rates.json` content or the remote
response's `rates` field): currency code → USD-relative rate. -/
abbrev RateTable : Type := List (String × ℚ)

/-- Result of `convert_currency`: a rounded number, or the
error string identifying the unsupported pair. -/
inductive CurrencyResult : Type
  | num (q : ℚ)
  | unavailable (fromCode toCode : String)
deriving DecidableEq, Repr

/-- Outcome of one `convert_currency` call: its return value, the state
of `currency_rates.json` afterwards, and whether the remote rate source
was contacted (`update_currency_rates` ran). -/
structure CurrencyOutcome : Type where
  result : CurrencyResult
  newCache : Option RateTable
  fetched : Bool
deriving DecidableEq, Repr

/-- `convert_currency(amount, from_currency, to_currency)` from
src/converter.py.  `cache` is the state of `currency_rates.json`
(`none` = missing, so opening it raises `FileNotFoundError`); `remote`
is the rate table the remote source would return.  When the cache file
is missing, `update_currency_rates()` fetches `remote` and writes it to
the cache file; then both codes are looked up in the loaded-or-fetched
table and the rounded quotient or the error string is returned. -/
def convert_currency (cache : Option RateTable) (remote : RateTable)
    (amount : ℚ) (from_currency to_currency : String) : CurrencyOutcome :=
  match cache with
  | Option.some offline_rates =>
      match dictGet offline_rates from_currency,
            dictGet offline_rates to_currency with
      | Option.some rf, Option.some rt =>
          ⟨CurrencyResult.num (roundPy (amount * rt / rf) 2),
           Option.some offline_rates, false⟩
      | _, _ =>
          ⟨CurrencyResult.unavailable from_currency to_currency,
           Option.some offline_rates, false⟩
  | Option.none =>
      match dictGet remote from_currency, dictGet remote to_currency with
      | Option.some rf, Option.some rt =>
          ⟨CurrencyResult.num (roundPy (amount * rt / rf) 2),
           Option.some remote, true⟩
      | _, _ =>
          ⟨CurrencyResult.unavailable from_currency to_currency,
           Option.some remote, true⟩

/-- The fixed category order of the summary loop in src/converter.py. -/
def summaryCategories : List String :=
  ["Length", "Weight", "Temperature", "Speed", "Currency"]

/-- The first category (in the fixed order) whose unit list contains
the given unit, as found by the inner loop of the summary code. -/
def recordCategory (unit : String) : Option String :=
  summaryCategories.find? (fun c => unit ∈ get_supported_units c)

/-- The `category_counts` computation of src/converter.py: for each
record, the inner loop increments the count of the first category whose
unit list contains the record's `fromUnit` (and `break`s); records
matching no category leave the counts unchanged.  Counts are modelled
as a function `String → ℕ` (a `defaultdict(int)`). -/
def category_counts (history : List ConversionRecord) : String → ℕ :=
  history.foldl
    (fun counts record =>
      match recordCategory record.fromUnit with
      | Option.some c => fun x => if x = c then counts x + 1 else counts x
      | Option.none => counts)
    (fun _ => 0)

/-- The loaded-or-fetched rate table that `convert_currency` ends up
looking codes up in: the cache file content when present, otherwise the
freshly fetched remote table. -/
def effectiveRates : Option RateTable → RateTable → RateTable
  | Option.some offline_rates, _ => offline_rates
  | Option.none, remote => remote

/-- The example rate table of the spec: USD 1, EUR 0.9. -/
def demoRates : RateTable := [("USD", 1), ("EUR", 9/10)]

/-- A history whose records have fromUnit values Meter, Kilogram, Meter
(the summary example of the spec). -/
def demoSummaryHistory : List ConversionRecord :=
  [⟨1, "Meter", "Kilometer", Sum.inl 1000⟩,
   ⟨2, "Kilogram", "Gram", Sum.inl 2000⟩,
   ⟨3, "Meter", "Centimeter", Sum.inl 300⟩]

/-- `roundHalfEven` is within 1/2 of its argument. -/
theorem abs_roundHalfEven_sub_le (q : ℚ) : |(roundHalfEven q : ℚ) - q| ≤ 1/2 := by
  have h0 : ((⌊q⌋ : ℚ)) ≤ q := Int.floor_le q
  have h1 : q < (⌊q⌋ : ℚ) + 1 := Int.lt_floor_add_one q
  rw [roundHalfEven]
  split_ifs with hc1 hc2 hc3 <;> rw [abs_le] <;> push_cast <;>
    constructor <;> linarith

/-- `roundHalfEven` returns the unique integer strictly within 1/2. -/
theorem roundHalfEven_eq_of_abs_lt (q : ℚ) (m : ℤ) (h : |q - (m : ℚ)| < 1/2) :
    roundHalfEven q = m := by
  rcases abs_lt.mp h with ⟨h1, h2⟩
  by_cases hq : (m : ℚ) ≤ q
  · have hf : ⌊q⌋ = m := by
      rw [Int.floor_eq_iff]
      refine ⟨hq, ?_⟩
      linarith
    rw [roundHalfEven, hf]
    have hlt : q - (m : ℚ) < 1/2 := by linarith
    rw [if_pos hlt]
  · have hf : ⌊q⌋ = m - 1 := by
      rw [Int.floor_eq_iff]
      push_cast
      constructor <;> linarith
    rw [roundHalfEven, hf]
    have hc1 : ¬ (q - ((m - 1 : ℤ) : ℚ) < 1/2) := by push_cast; linarith
    have hc2 : 1/2 < q - ((m - 1 : ℤ) : ℚ) := by push_cast; linarith
    rw [if_neg hc1, if_pos hc2]
    omega

/-- Evaluation rule for `roundPy` at inputs with no tie. -/
theorem roundPy_eq_of (q : ℚ) (n : ℕ) (m : ℤ) (t : ℚ)
    (h1 : |q * 10 ^ n - (m : ℚ)| < 1/2) (h2 : (m : ℚ) / 10 ^ n = t) :
    roundPy q n = t := by
  rw [roundPy, roundHalfEven_eq_of_abs_lt _ m h1, h2]

/-- `roundPy q n` is within half a unit in the last decimal place. -/
theorem abs_roundPy_sub_le (q : ℚ) (n : ℕ) :
    |roundPy q n - q| ≤ 1 / (2 * 10 ^ n) := by
  have h := abs_roundHalfEven_sub_le (q * 10 ^ n)
  have h10 : (0 : ℚ) < 10 ^ n := by positivity
  rw [roundPy, show (roundHalfEven (q * 10 ^ n) : ℚ) / 10 ^ n - q
        = ((roundHalfEven (q * 10 ^ n) : ℚ) - q * 10 ^ n) / 10 ^ n from by
      field_simp
      ring]
  rw [abs_div, abs_of_pos h10]
  calc |(roundHalfEven (q * 10 ^ n) : ℚ) - q * 10 ^ n| / 10 ^ n
      ≤ (1/2) / 10 ^ n := by gcongr
    _ = 1 / (2 * 10 ^ n) := by ring

/-- On a linear category, `multi_step_conversion` is the rounded
factor-quotient formula. -/
theorem multi_step_linear (category from_unit to_unit : String) (v : ℚ)
    (T : List (String × ℚ)) (a b : ℚ)
    (hT : dictGet factorsTable category = Option.some T)
    (ha : dictGet T from_unit = Option.some a)
    (hb : dictGet T to_unit = Option.some b) :
    multi_step_conversion category from_unit to_unit v
      = ConvResult.num (roundPy (v * a / b) 4) := by
  simp only [multi_step_conversion, hT, ha, hb]

/-- A successful `dictGet` lookup is a membership. -/
theorem dictGet_mem {α : Type} {l : List (String × α)} {k : String} {v : α}
    (h : dictGet l k = Option.some v) : (k, v) ∈ l := by
  induction l with
  | nil => simp [dictGet] at h
  | cons p rest ih =>
    obtain ⟨k0, v0⟩ := p
    rw [dictGet] at h
    by_cases hk : k = k0
    · rw [if_pos hk] at h
      obtain rfl := hk
      obtain rfl : v0 = v := by injection h
      exact List.mem_cons_self _ _
    · rw [if_neg hk] at h
      exact List.mem_cons_of_mem _ (ih h)

/-- A value looked up in a pointwise-positive table is positive. -/
theorem pos_of_mem_pos {l : List (String × ℚ)} (hl : ∀ p ∈ l, 0 < p.2)
    {k : String} {r : ℚ} (h : (k, r) ∈ l) : 0 < r :=
  hl _ h

/-- Every conversion factor in the linear tables is positive. -/
theorem factorsTable_pos {category : String} {T : List (String × ℚ)}
    (hT : dictGet factorsTable category = Option.some T)
    {k : String} {r : ℚ} (hk : dictGet T k = Option.some r) : 0 < r := by
  have h1 := dictGet_mem hT
  have h2 := dictGet_mem hk
  simp only [factorsTable, List.mem_cons, List.not_mem_nil, or_false,
    Prod.mk.injEq] at h1
  rcases h1 with ⟨-, rfl⟩ | ⟨-, rfl⟩ | ⟨-, rfl⟩ <;>
    exact pos_of_mem_pos (by intro p hp; fin_cases hp <;> norm_num) h2

/-- Folding `save_history` appends the records to the loaded history. -/
theorem load_foldl_save (recs : List ConversionRecord) (file : HistoryFile) :
    load_history (recs.foldl (fun f r => save_history r f) file)
      = load_history file ++ recs := by
  induction recs generalizing file with
  | nil => simp
  | cons r rest ih =>
    rw [List.foldl_cons, ih]
    simp [save_history, load_history]

/-- The summary fold counts, per category, the records whose first
matching category is that one. -/
theorem category_counts_foldl (history : List ConversionRecord)
    (counts : String → ℕ) (c : String) :
    (history.foldl
      (fun counts record =>
        match recordCategory record.fromUnit with
        | Option.some c0 => fun x => if x = c0 then counts x + 1 else counts x
        | Option.none => counts)
      counts) c
      = counts c
        + (history.filter
            (fun r => recordCategory r.fromUnit = Option.some c)).length := by
  induction history generalizing counts with
  | nil => simp
  | cons r rest ih =>
    rw [List.foldl_cons, ih]
    cases hc : recordCategory r.fromUnit with
    | none => simp [List.filter_cons, hc]
    | some c0 =>
      by_cases hcc : c = c0
      · subst hcc
        simp [List.filter_cons, hc]
        omega
      · simp [List.filter_cons, hc, hcc, Ne.symm hcc]

/-- On a linear category, `multi_step_conversion` never returns `None`
(it returns a number or raises `KeyError`). -/
theorem multi_step_some_table (category from_unit to_unit : String) (v : ℚ)
    (T : List (String × ℚ))
    (hT : dictGet factorsTable category = Option.some T) :
    multi_step_conversion category from_unit to_unit v ≠ ConvResult.noneRes := by
  simp only [multi_step_conversion, hT]
  cases dictGet T from_unit <;> cases dictGet T to_unit <;> simp

/-- C1: for every linear category (Length, Weight, Speed) and every pair
of units in that category's factor table, `multi_step_conversion`
returns `round(value * factor[fromUnit] / factor[toUnit], 4)`; in
particular 1 Kilometer = 1000.0 Meter, 1 Mile = 1.6093 Kilometer, and
1 Pound = 0.4536 Kilogram. -/
theorem claim_linear_conversion :
    (∀ (category from_unit to_unit : String) (v : ℚ)
        (T : List (String × ℚ)) (a b : ℚ),
        dictGet factorsTable category = Option.some T →
        dictGet T from_unit = Option.some a →
        dictGet T to_unit = Option.some b →
        multi_step_conversion category from_unit to_unit v
          = ConvResult.num (roundPy (v * a / b) 4))
    ∧ multi_step_conversion "Length" "Kilometer" "Meter" 1
        = ConvResult.num 1000
    ∧ multi_step_conversion "Length" "Mile" "Kilometer" 1
        = ConvResult.num (16093/10000)
    ∧ multi_step_conversion "Weight" "Pound" "Kilogram" 1
        = ConvResult.num (4536/10000) := by
  refine ⟨fun category f t v T a b hT ha hb =>
    multi_step_linear _ _ _ _ _ _ _ hT ha hb, ?_, ?_, ?_⟩
  · rw [show multi_step_conversion "Length" "Kilometer" "Meter" 1
        = ConvResult.num (roundPy (1 * 1000 / 1) 4) from rfl]
    exact congrArg ConvResult.num
      (roundPy_eq_of _ 4 10000000 _ (by norm_num) (by norm_num))
  · rw [show multi_step_conversion "Length" "Mile" "Kilometer" 1
        = ConvResult.num (roundPy (1 * (160934/100) / 1000) 4) from rfl]
    exact congrArg ConvResult.num
      (roundPy_eq_of _ 4 16093 _ (by rw [abs_lt]; constructor <;> norm_num)
        (by norm_num))
  · rw [show multi_step_conversion "Weight" "Pound" "Kilogram" 1
        = ConvResult.num (roundPy (1 * (453592/1000000) / 1) 4) from rfl]
    exact congrArg ConvResult.num
      (roundPy_eq_of _ 4 4536 _ (by rw [abs_lt]; constructor <;> norm_num)
        (by norm_num))

/-- Witness for C1: the general formula applied to Length,
Kilometer → Meter at value 1. -/
theorem claim_linear_conversion_witness :
    multi_step_conversion "Length" "Kilometer" "Meter" 1
      = ConvResult.num (roundPy (1 * 1000 / 1) 4) :=
  claim_linear_conversion.1 "Length" "Kilometer" "Meter" 1 _ 1000 1 rfl rfl rfl

/-- C2: Temperature conversions use the affine formulas rounded to 2
decimals: Celsius→Fahrenheit is `round(v * 9/5 + 32, 2)` and
Fahrenheit→Celsius is `round((v - 32) * 5/9, 2)`; in particular
0 °C = 32.0 °F and 32 °F = 0.0 °C. -/
theorem claim_temperature_conversion :
    (∀ v : ℚ, multi_step_conversion "Temperature" "Celsius" "Fahrenheit" v
        = ConvResult.num (roundPy (v * 9/5 + 32) 2))
    ∧ (∀ v : ℚ, multi_step_conversion "Temperature" "Fahrenheit" "Celsius" v
        = ConvResult.num (roundPy ((v - 32) * 5/9) 2))
    ∧ multi_step_conversion "Temperature" "Celsius" "Fahrenheit" 0
        = ConvResult.num 32
    ∧ multi_step_conversion "Temperature" "Fahrenheit" "Celsius" 32
        = ConvResult.num 0 := by
  refine ⟨fun v => rfl, fun v => rfl, ?_, ?_⟩
  · rw [show multi_step_conversion "Temperature" "Celsius" "Fahrenheit" 0
        = ConvResult.num (roundPy ((0:ℚ) * 9/5 + 32) 2) from rfl]
    exact congrArg ConvResult.num
      (roundPy_eq_of _ 2 3200 _ (by norm_num) (by norm_num))
  · rw [show multi_step_conversion "Temperature" "Fahrenheit" "Celsius" 32
        = ConvResult.num (roundPy (((32:ℚ) - 32) * 5/9) 2) from rfl]
    exact congrArg ConvResult.num
      (roundPy_eq_of _ 2 0 _ (by norm_num) (by norm_num))

/-- C3: `convert_currency` returns the rounded quotient
`round(amount * rate[toCode] / rate[fromCode], 2)` exactly when both
codes are in the loaded-or-fetched table, and otherwise the unavailable
signal naming the pair; with table {USD: 1, EUR: 0.9}, 100 USD→EUR is
90.00 and 100 XYZ→EUR is unavailable. -/
theorem claim_currency_conversion :
    (∀ (cache : Option RateTable) (remote : RateTable) (amount : ℚ)
        (fromCode toCode : String) (rf rt : ℚ),
        dictGet (effectiveRates cache remote) fromCode = Option.some rf →
        dictGet (effectiveRates cache remote) toCode = Option.some rt →
        (convert_currency cache remote amount fromCode toCode).result
          = CurrencyResult.num (roundPy (amount * rt / rf) 2))
    ∧ (∀ (cache : Option RateTable) (remote : RateTable) (amount : ℚ)
        (fromCode toCode : String),
        (dictGet (effectiveRates cache remote) fromCode = Option.none
          ∨ dictGet (effectiveRates cache remote) toCode = Option.none) →
        (convert_currency cache remote amount fromCode toCode).result
          = CurrencyResult.unavailable fromCode toCode)
    ∧ (convert_currency (Option.some demoRates) [] 100 "USD" "EUR").result
        = CurrencyResult.num 90
    ∧ (convert_currency (Option.some demoRates) [] 100 "XYZ" "EUR").result
        = CurrencyResult.unavailable "XYZ" "EUR" := by
  refine ⟨?_, ?_, ?_, rfl⟩
  · intro cache remote amount fromCode toCode rf rt ha hb
    cases cache with
    | some offline_rates =>
        simp only [effectiveRates] at ha hb
        simp only [convert_currency, ha, hb]
    | none =>
        simp only [effectiveRates] at ha hb
        simp only [convert_currency, ha, hb]
  · intro cache remote amount fromCode toCode h
    cases cache with
    | some offline_rates =>
        simp only [effectiveRates] at h
        simp only [convert_currency]
        rcases h with h | h
        · rw [h]
        · rw [h]
          cases dictGet offline_rates fromCode <;> rfl
    | none =>
        simp only [effectiveRates] at h
        simp only [convert_currency]
        rcases h with h | h
        · rw [h]
        · rw [h]
          cases dictGet remote fromCode <;> rfl
  · rw [show (convert_currency (Option.some demoRates) [] 100 "USD"
          "EUR").result
        = CurrencyResult.num (roundPy (100 * (9/10) / 1) 2) from rfl]
    exact congrArg CurrencyResult.num
      (roundPy_eq_of _ 2 9000 _ (by norm_num) (by norm_num))

/-- Witness for C3: the success branch applied to the USD→EUR example. -/
theorem claim_currency_conversion_witness :
    (convert_currency (Option.some demoRates) [] 100 "USD" "EUR").result
      = CurrencyResult.num (roundPy (100 * (9/10) / 1) 2) :=
  claim_currency_conversion.1 (Option.some demoRates) [] 100 "USD" "EUR"
    1 (9/10) rfl rfl

/-- C4: `multi_step_conversion` returns `None` exactly for Temperature
pairings other than Celsius→Fahrenheit and Fahrenheit→Celsius (which
includes the same-unit pairings) and for categories outside
Length/Weight/Speed/Temperature; `None` is a distinct value, not a
raised error. -/
theorem claim_no_result_characterization (category f t : String) (v : ℚ) :
    multi_step_conversion category f t v = ConvResult.noneRes ↔
      ((category = "Temperature"
          ∧ ¬(f = "Celsius" ∧ t = "Fahrenheit")
          ∧ ¬(f = "Fahrenheit" ∧ t = "Celsius"))
        ∨ category ∉ (["Length", "Weight", "Speed", "Temperature"]
            : List String)) := by
  by_cases hL : category = "Length"
  · subst hL
    have hne := multi_step_some_table "Length" f t v _ rfl
    simp [hne]
  by_cases hW : category = "Weight"
  · subst hW
    have hne := multi_step_some_table "Weight" f t v _ rfl
    simp [hne]
  by_cases hS : category = "Speed"
  · subst hS
    have hne := multi_step_some_table "Speed" f t v _ rfl
    simp [hne]
  by_cases hT : category = "Temperature"
  · subst hT
    rw [show multi_step_conversion "Temperature" f t v
          = (if f = "Celsius" ∧ t = "Fahrenheit" then
              ConvResult.num (roundPy (v * 9/5 + 32) 2)
            else if f = "Fahrenheit" ∧ t = "Celsius" then
              ConvResult.num (roundPy ((v - 32) * 5/9) 2)
            else ConvResult.noneRes) from rfl]
    by_cases h1 : f = "Celsius" ∧ t = "Fahrenheit"
    · simp [h1]
    by_cases h2 : f = "Fahrenheit" ∧ t = "Celsius"
    · simp [h1, h2]
    · simp [h1, h2]
  · have hnone : dictGet factorsTable category = Option.none := by
      simp [dictGet, factorsTable, hL, hW, hS]
    simp [multi_step_conversion, hnone, hT, hL, hW, hS]

/-- C5: appending N records to an empty history and reloading returns
exactly those records in order; clearing then loading gives the empty
list; loading with no persisted file gives the empty list. -/
theorem claim_history_roundtrip :
    (∀ recs : List ConversionRecord,
      load_history (recs.foldl (fun file r => save_history r file)
        Option.none) = recs)
    ∧ (∀ file : HistoryFile, load_history (clear_history file) = [])
    ∧ load_history Option.none = [] := by
  refine ⟨fun recs => ?_, fun file => rfl, rfl⟩
  rw [load_foldl_save]
  simp [load_history]

/-- C6: `category_counts` counts each record under the first category
(in the fixed order) whose unit list contains its fromUnit, silently
dropping unmatched records; on fromUnits Meter, Kilogram, Meter it
gives Length 2, Weight 1 and zero elsewhere. -/
theorem claim_summary_counts :
    (∀ (history : List ConversionRecord) (c : String),
        category_counts history c
          = (history.filter
              (fun r => recordCategory r.fromUnit = Option.some c)).length)
    ∧ category_counts demoSummaryHistory "Length" = 2
    ∧ category_counts demoSummaryHistory "Weight" = 1
    ∧ category_counts demoSummaryHistory "Temperature" = 0
    ∧ category_counts demoSummaryHistory "Speed" = 0
    ∧ category_counts demoSummaryHistory "Currency" = 0 := by
  refine ⟨fun history c => ?_, by decide, by decide, by decide, by decide,
    by decide⟩
  rw [category_counts, category_counts_foldl]
  simp

/-- C7 (counterexample): converting 1 Centimeter to Mile rounds to 0.0,
and converting 0.0 back gives 0.0, which is not within 4-decimal
tolerance of the original value 1 — the round-trip claim fails. -/
theorem claim_roundtrip_counterexample :
    multi_step_conversion "Length" "Centimeter" "Mile" 1 = ConvResult.num 0
    ∧ multi_step_conversion "Length" "Mile" "Centimeter" 0 = ConvResult.num 0
    ∧ ¬(|(0 : ℚ) - 1| ≤ 1/10^4) := by
  refine ⟨?_, ?_, by norm_num⟩
  · rw [show multi_step_conversion "Length" "Centimeter" "Mile" 1
        = ConvResult.num (roundPy (1 * (1/100) / (160934/100)) 4) from rfl]
    exact congrArg ConvResult.num
      (roundPy_eq_of _ 4 0 _ (by rw [abs_lt]; constructor <;> norm_num)
        (by norm_num))
  · rw [show multi_step_conversion "Length" "Mile" "Centimeter" 0
        = ConvResult.num (roundPy (0 * (160934/100) / (1/100)) 4) from rfl]
    exact congrArg ConvResult.num
      (roundPy_eq_of _ 4 0 _ (by norm_num) (by norm_num))

/-- C7 (amended): the round trip A→B→A returns the original value
within 10⁻⁴ provided the target unit's factor does not exceed the
source unit's factor (so the intermediate rounding error is not
magnified on the way back). -/
theorem claim_roundtrip_amended (category from_unit to_unit : String)
    (T : List (String × ℚ)) (a b v w u : ℚ)
    (hT : dictGet factorsTable category = Option.some T)
    (ha : dictGet T from_unit = Option.some a)
    (hb : dictGet T to_unit = Option.some b)
    (hba : b ≤ a)
    (hw : multi_step_conversion category from_unit to_unit v
      = ConvResult.num w)
    (hu : multi_step_conversion category to_unit from_unit w
      = ConvResult.num u) :
    |u - v| ≤ 1/10^4 := by
  have ha0 : 0 < a := factorsTable_pos hT ha
  have hb0 : 0 < b := factorsTable_pos hT hb
  have hane : a ≠ 0 := ha0.ne'
  have hbne : b ≠ 0 := hb0.ne'
  have hw' : w = roundPy (v * a / b) 4 := by
    have h := multi_step_linear category from_unit to_unit v T a b hT ha hb
    rw [hw] at h
    injection h
  have hu' : u = roundPy (w * b / a) 4 := by
    have h := multi_step_linear category to_unit from_unit w T b a hT hb ha
    rw [hu] at h
    injection h
  have e1 : |w - v * a / b| ≤ 1/20000 := by
    have h := abs_roundPy_sub_le (v * a / b) 4
    rw [← hw'] at h
    calc |w - v * a / b| ≤ 1/(2 * 10 ^ 4) := h
      _ = 1/20000 := by norm_num
  have e2 : |u - w * b / a| ≤ 1/20000 := by
    have h := abs_roundPy_sub_le (w * b / a) 4
    rw [← hu'] at h
    calc |u - w * b / a| ≤ 1/(2 * 10 ^ 4) := h
      _ = 1/20000 := by norm_num
  have hrw : w * b / a - v = (w - v * a / b) * (b / a) := by
    field_simp
    ring
  have e3 : |w * b / a - v| ≤ 1/20000 := by
    rw [hrw, abs_mul, abs_of_pos (div_pos hb0 ha0)]
    have hba1 : b / a ≤ 1 := (div_le_one ha0).mpr hba
    calc |w - v * a / b| * (b / a) ≤ (1/20000) * 1 :=
          mul_le_mul e1 hba1 (div_pos hb0 ha0).le (by norm_num)
      _ = 1/20000 := by ring
  calc |u - v| ≤ |u - w * b / a| + |w * b / a - v| := abs_sub_le _ _ _
    _ ≤ 1/20000 + 1/20000 := add_le_add e2 e3
    _ = 1/10^4 := by norm_num

/-- Witness for the amended C7: Kilometer → Meter → Kilometer at
value 1 stays within 10⁻⁴. -/
theorem claim_roundtrip_amended_witness :
    |roundPy (roundPy ((1:ℚ) * 1000 / 1) 4 * 1 / 1000) 4 - 1| ≤ 1/10^4 :=
  claim_roundtrip_amended "Length" "Kilometer" "Meter" _ 1000 1 1
    (roundPy ((1:ℚ) * 1000 / 1) 4)
    (roundPy (roundPy ((1:ℚ) * 1000 / 1) 4 * 1 / 1000) 4)
    rfl rfl rfl (by norm_num) rfl rfl

/-- C8: `convert_currency` contacts the remote source exactly when the
cache file is missing, in which case it writes the fetched table to the
cache; an existing cache is used as-is and never rewritten, whatever
codes it contains. -/
theorem claim_currency_cache_frame (cache : Option RateTable)
    (remote : RateTable) (amount : ℚ) (fromCode toCode : String) :
    ((convert_currency cache remote amount fromCode toCode).fetched = true
        ↔ cache = Option.none)
    ∧ (∀ offline_rates, cache = Option.some offline_rates →
        (convert_currency cache remote amount fromCode toCode).newCache
          = Option.some offline_rates)
    ∧ (cache = Option.none →
        (convert_currency cache remote amount fromCode toCode).newCache
          = Option.some remote) := by
  cases cache with
  | some offline_rates =>
      simp only [convert_currency]
      cases dictGet offline_rates fromCode <;>
        cases dictGet offline_rates toCode <;> simp
  | none =>
      simp only [convert_currency]
      cases dictGet remote fromCode <;> cases dictGet remote toCode <;> simp

/-- Witness for C8: an existing cache is kept; a missing cache is
replaced by the fetched table. -/
theorem claim_currency_cache_frame_witness :
    (convert_currency (Option.some demoRates) [] 1 "USD" "EUR").newCache
      = Option.some demoRates
    ∧ (convert_currency Option.none demoRates 1 "USD" "EUR").newCache
      = Option.some demoRates :=
  ⟨(claim_currency_cache_frame (Option.some demoRates) [] 1 "USD"
      "EUR").2.1 demoRates rfl,
   (claim_currency_cache_frame Option.none demoRates 1 "USD" "EUR").2.2 rfl⟩

/-- C9: `get_supported_units` returns each category's fixed ordered
unit list and the empty list for any unrecognised category. -/
theorem claim_supported_units :
    get_supported_units "Length" = ["Meter", "Kilometer", "Centimeter", "Mile"]
    ∧ get_supported_units "Weight" = ["Kilogram", "Gram", "Pound", "Ounce"]
    ∧ get_supported_units "Temperature" = ["Celsius", "Fahrenheit"]
    ∧ get_supported_units "Speed" = ["m/s", "km/h", "mph"]
    ∧ get_supported_units "Currency" = ["USD", "EUR", "GBP", "INR", "PKR"]
    ∧ (∀ category : String,
        category ∉ (["Length", "Weight", "Temperature", "Speed", "Currency"]
          : List String) →
        get_supported_units category = []) := by
  refine ⟨rfl, rfl, rfl, rfl, rfl, fun category hc => ?_⟩
  simp only [List.mem_cons, List.not_mem_nil, or_false, not_or] at hc
  obtain ⟨h1, h2, h3, h4, h5⟩ := hc
  simp [get_supported_units, dictGet, categoriesTable, h1, h2, h3, h4, h5]

/-- Witness for C9: an unknown category degrades to no units. -/
theorem claim_supported_units_witness :
    get_supported_units "Banana" = [] :=
  claim_supported_units.2.2.2.2.2 "Banana" (by decide)

/-- C10: the factor table exists exactly for Length, Weight and Speed,
and whenever both units are keys of that table the conversion yields a
numeric result — the `None` branch and the failing lookup are
unreachable. -/
theorem claim_linear_total :
    (∀ category : String,
        (∃ T, dictGet factorsTable category = Option.some T)
          ↔ category ∈ (["Length", "Weight", "Speed"] : List String))
    ∧ (∀ (category : String) (T : List (String × ℚ))
        (from_unit to_unit : String) (a b v : ℚ),
        dictGet factorsTable category = Option.some T →
        dictGet T from_unit = Option.some a →
        dictGet T to_unit = Option.some b →
        ∃ q : ℚ, multi_step_conversion category from_unit to_unit v
          = ConvResult.num q) := by
  constructor
  · intro category
    constructor
    · rintro ⟨T, hT⟩
      by_cases h1 : category = "Length"
      · simp [h1]
      by_cases h2 : category = "Weight"
      · simp [h2]
      by_cases h3 : category = "Speed"
      · simp [h3]
      · exfalso
        simp [dictGet, factorsTable, h1, h2, h3] at hT
    · intro hc
      fin_cases hc <;> exact ⟨_, rfl⟩
  · intro category T from_unit to_unit a b v hT ha hb
    exact ⟨_, multi_step_linear _ _ _ _ _ _ _ hT ha hb⟩

/-- Witness for C10: Speed with km/h → m/s at value 5 yields a number. -/
theorem claim_linear_total_witness :
    ∃ q : ℚ, multi_step_conversion "Speed" "km/h" "m/s" 5 = ConvResult.num q :=
  claim_linear_total.2 "Speed" _ "km/h" "m/s" (36/10) 1 5 rfl rfl rfl

end UnitConverter
